import Mathlib

/-!
Shallow embedding of the surrealex query-builder library (src/lib.rs):
a fluent builder for SurrealQL SELECT queries, LET-binding scripts and
transaction scripts.  Rust `&mut self` methods become functions from the
builder state to a new builder state; `&self` methods become pure
functions of the state; `Result<T, &'static str>` becomes
`Except String T`, with the exact error message strings of the source.
-/

namespace Surrealex

/-- Condition tree for WHERE clauses: a raw string leaf, an AND group or
an OR group (src/lib.rs, `enum Condition`). -/
inductive Condition where
  | Simple : String → Condition
  | And : List Condition → Condition
  | Or : List Condition → Condition

mutual

/-- Recursive renderer of a condition tree (src/lib.rs, `render_condition`):
a leaf renders verbatim, composite nodes join their rendered children with
" AND " / " OR " and wrap the result in parentheses. -/
def render_condition : Condition → String
  | .Simple s => s
  | .And conditions =>
      "(" ++ String.intercalate " AND " (render_condition_list conditions) ++ ")"
  | .Or conditions =>
      "(" ++ String.intercalate " OR " (render_condition_list conditions) ++ ")"

/-- Renders each condition in a list (the `conditions.iter().map(render_condition)`
of the source). -/
def render_condition_list : List Condition → List String
  | [] => []
  | c :: cs => render_condition c :: render_condition_list cs

end

/-- Lemma: `render_condition_list` is exactly the elementwise map of `render_condition`. -/
theorem render_condition_list_eq_map (cs : List Condition) :
    render_condition_list cs = cs.map render_condition := by
  induction cs with
  | nil => rfl
  | cons c cs ih => simp [render_condition_list, ih]

/-- Direction of graph traversal arrows (src/lib.rs, `enum Direction`). -/
inductive Direction where
  | Out : Direction
  | In : Direction
deriving DecidableEq

/-- Parameters for a two-step graph traversal expansion
(src/lib.rs, `struct GraphExpandParams`).  `from`, `to` and `alias` are
Lean keywords, so the fields carry a trailing underscore. -/
structure GraphExpandParams where
  from_ : Direction × String
  to_ : Direction × String
  alias_ : Option String

/-- The SELECT-query builder state (src/lib.rs, `struct QueryBuilder`). -/
structure QueryBuilder where
  select_items : List String
  graph_expansions : List String
  traverse_clauses : List String
  distinct : Bool
  from_table : Option String
  fetch_clauses : List String
  where_clauses : List Condition
  order_by : List String
  limit : Option Nat
  start : Option Nat

/-- Rust `QueryBuilder::new`: fresh builder defaulting to `SELECT *`. -/
def QueryBuilder.new : QueryBuilder :=
  { select_items := ["*"], graph_expansions := [], traverse_clauses := [],
    distinct := false, from_table := none, fetch_clauses := [],
    where_clauses := [], order_by := [], limit := none, start := none }

/-- Rust `QueryBuilder::select`: clears the select list when it is exactly the
single entry "*", then appends `expr` or `expr AS alias`. -/
def QueryBuilder.select (self : QueryBuilder) (expr : String)
    (alias_ : Option String) : QueryBuilder :=
  let items :=
    if self.select_items.length == 1 && self.select_items.getD 0 "" == "*" then
      []
    else
      self.select_items
  let item :=
    match alias_ with
    | some a => expr ++ " AS " ++ a
    | none => expr
  { self with select_items := items ++ [item] }

/-- Rust `QueryBuilder::from`: sets the mandatory source table (`from` is a Lean
keyword, so the method is named `from_`). -/
def QueryBuilder.from_ (self : QueryBuilder) (table : String) : QueryBuilder :=
  { self with from_table := some table }

/-- Rust `QueryBuilder::fetch`: appends one FETCH field. -/
def QueryBuilder.fetch (self : QueryBuilder) (field : String) : QueryBuilder :=
  { self with fetch_clauses := self.fetch_clauses ++ [field] }

/-- Rust `QueryBuilder::graph_expand`: appends one raw projection to the
graph-expansion list. -/
def QueryBuilder.graph_expand (self : QueryBuilder)
    (expansion_clause : String) : QueryBuilder :=
  { self with graph_expansions := self.graph_expansions ++ [expansion_clause] }

/-- Rust `QueryBuilder::where_simple`: appends a leaf condition. -/
def QueryBuilder.where_simple (self : QueryBuilder) (condition : String) :
    QueryBuilder :=
  { self with where_clauses := self.where_clauses ++ [.Simple condition] }

/-- Rust `QueryBuilder::where_complex`: appends an arbitrary condition tree. -/
def QueryBuilder.where_complex (self : QueryBuilder) (condition : Condition) :
    QueryBuilder :=
  { self with where_clauses := self.where_clauses ++ [condition] }

/-- Rust `QueryBuilder::order_by` (renamed: the structure field has that name):
appends one ORDER BY entry. -/
def QueryBuilder.add_order_by (self : QueryBuilder) (field_and_direction : String) :
    QueryBuilder :=
  { self with order_by := self.order_by ++ [field_and_direction] }

/-- Rust `QueryBuilder::limit` (renamed: the structure field has that name). -/
def QueryBuilder.set_limit (self : QueryBuilder) (count : Nat) : QueryBuilder :=
  { self with limit := some count }

/-- Rust `QueryBuilder::start` (renamed: the structure field has that name). -/
def QueryBuilder.set_start (self : QueryBuilder) (offset : Nat) : QueryBuilder :=
  { self with start := some offset }

/-- Rust `QueryBuilder::distinct` (renamed: the structure field has that name). -/
def QueryBuilder.set_distinct (self : QueryBuilder) : QueryBuilder :=
  { self with distinct := true }

/-- Rust `QueryBuilder::build`: renders the accumulated state into the final
query string, failing when no FROM table is set.  The sequence of
`push_str` mutations of the local `query` string becomes a chain of
appends. -/
def QueryBuilder.build (self : QueryBuilder) : Except String String :=
  match self.from_table with
  | none => .error "The FROM clause is required."
  | some from_table =>
    let all_selects := self.select_items ++ self.graph_expansions
    let final_select_clause := String.intercalate ", " all_selects
    let query :=
      if self.distinct then
        "SELECT DISTINCT " ++ final_select_clause ++ " FROM " ++ from_table
      else
        "SELECT " ++ final_select_clause ++ " FROM " ++ from_table
    let query := self.traverse_clauses.foldl (fun q c => q ++ " " ++ c) query
    let query :=
      if self.where_clauses.isEmpty then query
      else
        query ++ " WHERE " ++
          String.intercalate " AND " (self.where_clauses.map render_condition)
    let query :=
      if self.order_by.isEmpty then query
      else query ++ " ORDER BY " ++ String.intercalate ", " self.order_by
    let query :=
      match self.limit with
      | some l => query ++ " LIMIT " ++ toString l
      | none => query
    let query :=
      match self.start with
      | some s => query ++ " START " ++ toString s
      | none => query
    let query :=
      if self.fetch_clauses.isEmpty then query
      else query ++ " FETCH " ++ String.intercalate ", " self.fetch_clauses
    .ok query

/-- Rust `QueryBuilder::build` in state-passing form: the Rust method takes
`&self` (an immutable borrow), so the state-passing reading returns the
state it was given alongside the computed result. -/
def QueryBuilder.buildSt (self : QueryBuilder) :
    QueryBuilder × Except String String :=
  (self, self.build)

/-- Rust `QueryBuilder::graph_traverse`: renders a two-hop traversal fragment and
appends it to the traversal-clause list.  Note the second arrow is the
literal "->" regardless of `params.to`'s direction, as in the source. -/
def QueryBuilder.graph_traverse (self : QueryBuilder)
    (params : GraphExpandParams) : QueryBuilder :=
  let arrow1 :=
    match params.from_.1 with
    | .Out => "->"
    | .In => "<-"
  let clause := arrow1 ++ params.from_.2 ++ "->" ++ params.to_.2 ++ ".*"
  let clause :=
    match params.alias_ with
    | some a => clause ++ " AS " ++ a
    | none => clause
  { self with traverse_clauses := self.traverse_clauses ++ [clause] }

/-- The script builder state (src/lib.rs, `struct ScriptBuilder`): LET
statements plus an optional return map. -/
structure ScriptBuilder where
  statements : List String
  return_map : Option (List (String × String))

/-- Rust `ScriptBuilder::new`. -/
def ScriptBuilder.new : ScriptBuilder :=
  { statements := [], return_map := none }

/-- Rust `ScriptBuilder::let_raw`: appends `LET $name = (expr);`. -/
def ScriptBuilder.let_raw (self : ScriptBuilder) (name expr : String) :
    ScriptBuilder :=
  { self with
    statements := self.statements ++ ["LET $" ++ name ++ " = (" ++ expr ++ ");"] }

/-- Rust `ScriptBuilder::let_raw_with_suffix`: appends `LET $name = (expr)suffix;`. -/
def ScriptBuilder.let_raw_with_suffix (self : ScriptBuilder)
    (name expr sfx : String) : ScriptBuilder :=
  { self with
    statements :=
      self.statements ++ ["LET $" ++ name ++ " = (" ++ expr ++ ")" ++ sfx ++ ";"] }

/-- Rust `ScriptBuilder::let_query` in state-passing form: the Rust method takes
`&mut self` and returns `Result<&mut Self, &str>`, so here the first
component is the builder state after the call (unchanged when the inner
build fails, since the `?` operator returns before any mutation) and the
second is the success/error outcome. -/
def ScriptBuilder.let_query (self : ScriptBuilder) (name : String)
    (qb : QueryBuilder) : ScriptBuilder × Except String Unit :=
  match qb.build with
  | .error e => (self, .error e)
  | .ok q => (self.let_raw name q, .ok ())

/-- Rust `ScriptBuilder::let_query_with_suffix`, state-passing as `let_query`. -/
def ScriptBuilder.let_query_with_suffix (self : ScriptBuilder) (name : String)
    (qb : QueryBuilder) (sfx : String) : ScriptBuilder × Except String Unit :=
  match qb.build with
  | .error e => (self, .error e)
  | .ok q => (self.let_raw_with_suffix name q sfx, .ok ())

/-- Rust `ScriptBuilder::returning`: stores the (key, value) pairs verbatim,
replacing any previous map. -/
def ScriptBuilder.returning (self : ScriptBuilder)
    (map : List (String × String)) : ScriptBuilder :=
  { self with return_map := some map }

/-- Rust `ScriptBuilder::build`: fails unless a non-empty return map was set;
otherwise emits every statement followed by a newline and then the
`RETURN` object with comma-joined `key: value` pairs. -/
def ScriptBuilder.build (self : ScriptBuilder) : Except String String :=
  match self.return_map with
  | some m =>
    if m.isEmpty then .error "A return object is required."
    else
      let out := self.statements.foldl (fun acc st => acc ++ st ++ "\n") ""
      let pairs := m.map (fun kv => kv.1 ++ ": " ++ kv.2)
      .ok (out ++ "RETURN \x7b " ++ String.intercalate ", " pairs ++ " \x7d")
  | none => .error "A return object is required."

/-- Model of Rust `str::trim` as called by `add_statement`: remove
whitespace characters from both ends of the string. -/
def rust_trim (s : String) : String :=
  ⟨((s.data.dropWhile Char.isWhitespace).reverse.dropWhile
      Char.isWhitespace).reverse⟩

/-- Model of Rust `str::ends_with(';')` as called by `add_statement`: the
string's last character is a semicolon. -/
def ends_with_semicolon (s : String) : Bool :=
  s.data.getLast? == some ';'

/-- The transaction builder state (src/lib.rs, `struct TransactionBuilder`). -/
structure TransactionBuilder where
  statements : List String

/-- Rust `TransactionBuilder::new`. -/
def TransactionBuilder.new : TransactionBuilder :=
  { statements := [] }

/-- Rust `TransactionBuilder::begin`: appends `BEGIN TRANSACTION;`. -/
def TransactionBuilder.begin (self : TransactionBuilder) : TransactionBuilder :=
  { self with statements := self.statements ++ ["BEGIN TRANSACTION;"] }

/-- Rust `TransactionBuilder::add_statement`: trims the input and appends it,
adding a terminating semicolon when the trimmed text does not already end
with one. -/
def TransactionBuilder.add_statement (self : TransactionBuilder)
    (stmt : String) : TransactionBuilder :=
  let s := rust_trim stmt
  if ends_with_semicolon s then
    { self with statements := self.statements ++ [s] }
  else
    { self with statements := self.statements ++ [s ++ ";"] }

/-- Rust `TransactionBuilder::add_query` in state-passing form (see
`ScriptBuilder.let_query` for the convention). -/
def TransactionBuilder.add_query (self : TransactionBuilder)
    (qb : QueryBuilder) : TransactionBuilder × Except String Unit :=
  match qb.build with
  | .error e => (self, .error e)
  | .ok q => (self.add_statement q, .ok ())

/-- Rust `TransactionBuilder::add_query_with_suffix`: as `add_query` but wraps
the built query in parentheses and appends the suffix. -/
def TransactionBuilder.add_query_with_suffix (self : TransactionBuilder)
    (qb : QueryBuilder) (sfx : String) : TransactionBuilder × Except String Unit :=
  match qb.build with
  | .error e => (self, .error e)
  | .ok q => (self.add_statement ("(" ++ q ++ ")" ++ sfx), .ok ())

/-- Rust `TransactionBuilder::add_script`: appends the script text verbatim. -/
def TransactionBuilder.add_script (self : TransactionBuilder)
    (script : String) : TransactionBuilder :=
  { self with statements := self.statements ++ [script] }

/-- Rust `TransactionBuilder::commit`: appends `COMMIT TRANSACTION;`. -/
def TransactionBuilder.commit (self : TransactionBuilder) : TransactionBuilder :=
  { self with statements := self.statements ++ ["COMMIT TRANSACTION;"] }

/-- Rust `TransactionBuilder::cancel`: appends `CANCEL TRANSACTION;`. -/
def TransactionBuilder.cancel (self : TransactionBuilder) : TransactionBuilder :=
  { self with statements := self.statements ++ ["CANCEL TRANSACTION;"] }

/-- Rust `TransactionBuilder::build`: joins all statements with newlines;
total, never fails. -/
def TransactionBuilder.build (self : TransactionBuilder) : String :=
  String.intercalate "\n" self.statements

/-! Helper lemmas about string folds and joins. -/

theorem string_foldl_append (l : List String) (q : String) :
    l.foldl (fun r s => r ++ s) q = q ++ String.join l := by
  induction l generalizing q with
  | nil => exact (String.append_empty q).symm
  | cons a l ih =>
    show l.foldl _ (q ++ a) = q ++ String.join (a :: l)
    rw [ih]
    have h2 : String.join (a :: l) = a ++ String.join l := by
      show l.foldl _ ("" ++ a) = _
      rw [ih, String.empty_append]
    rw [h2, String.append_assoc]

theorem string_join_cons (a : String) (l : List String) :
    String.join (a :: l) = a ++ String.join l := by
  show l.foldl _ ("" ++ a) = _
  rw [string_foldl_append, String.empty_append]

theorem foldl_space_join (l : List String) (q : String) :
    l.foldl (fun q c => q ++ " " ++ c) q
      = q ++ String.join (l.map (fun c => " " ++ c)) := by
  induction l generalizing q with
  | nil => exact (String.append_empty q).symm
  | cons c cs ih =>
    show cs.foldl _ (q ++ " " ++ c)
      = q ++ String.join ((" " ++ c) :: cs.map (fun c => " " ++ c))
    rw [ih, string_join_cons]
    simp [String.append_assoc]

theorem foldl_newline_join (l : List String) (q : String) :
    l.foldl (fun acc st => acc ++ st ++ "\n") q
      = q ++ String.join (l.map (fun st => st ++ "\n")) := by
  induction l generalizing q with
  | nil => exact (String.append_empty q).symm
  | cons c cs ih =>
    show cs.foldl _ (q ++ c ++ "\n")
      = q ++ String.join ((c ++ "\n") :: cs.map (fun st => st ++ "\n"))
    rw [ih, string_join_cons]
    simp [String.append_assoc]

/-- The rendered SELECT query as the specification phrases it: `SELECT `
(with `DISTINCT ` inserted iff the distinct flag is set), the select items
then the graph expansions joined by `, `, ` FROM ` and the table, each
traversal fragment preceded by a single space, then the optional WHERE,
ORDER BY, LIMIT, START and FETCH clauses in that fixed order, each omitted
entirely when its backing list is empty or its optional field is unset. -/
def buildSpec (qb : QueryBuilder) (t : String) : String :=
  (if qb.distinct then "SELECT DISTINCT " else "SELECT ")
    ++ String.intercalate ", " (qb.select_items ++ qb.graph_expansions)
    ++ " FROM " ++ t
    ++ String.join (qb.traverse_clauses.map (fun c => " " ++ c))
    ++ (if qb.where_clauses.isEmpty then ""
        else " WHERE " ++
          String.intercalate " AND " (qb.where_clauses.map render_condition))
    ++ (if qb.order_by.isEmpty then ""
        else " ORDER BY " ++ String.intercalate ", " qb.order_by)
    ++ (match qb.limit with
        | some n => " LIMIT " ++ toString n
        | none => "")
    ++ (match qb.start with
        | some n => " START " ++ toString n
        | none => "")
    ++ (if qb.fetch_clauses.isEmpty then ""
        else " FETCH " ++ String.intercalate ", " qb.fetch_clauses)

/-- C1: with a source table set, `build` returns the clauses assembled in
the fixed order — SELECT (with DISTINCT iff the flag is set), the select
items then graph expansions joined by ", ", FROM, the traversal fragments
each preceded by a space, then WHERE, ORDER BY, LIMIT, START and FETCH,
each optional clause omitted when its backing data is empty or unset, with
all lists rendered in insertion order. -/
theorem C1_build_clause_order (qb : QueryBuilder) (t : String)
    (h : qb.from_table = some t) :
    qb.build = .ok (buildSpec qb t) := by
  obtain ⟨si, ge, tc, d, ft, fc, wc, ob, li, st⟩ := qb
  simp only [QueryBuilder.from_table] at h
  subst h
  simp only [QueryBuilder.build, buildSpec, foldl_space_join]
  cases d <;>
    cases hw : wc.isEmpty <;>
      cases hob : ob.isEmpty <;>
        cases li <;>
          cases st <;>
            cases hfc : fc.isEmpty <;>
              simp [hw, hob, hfc, String.append_assoc, String.append_empty]

/-- C1 witness: a builder exercising every clause renders to the
spec-side assembly, which evaluates to the expected literal query. -/
theorem C1_build_clause_order_witness :
    ((((((((((QueryBuilder.new.select "a" none).from_ "t").where_simple
        "w").fetch "f").graph_expand "g").add_order_by "o").set_limit 1).set_start
        2).graph_traverse ⟨(.Out, "e"), (.In, "p"), none⟩).build
      = Except.ok "SELECT a, g FROM t ->e->p.* WHERE w ORDER BY o LIMIT 1 START 2 FETCH f")
    ∧ ((((((((((QueryBuilder.new.select "a" none).from_ "t").where_simple
        "w").fetch "f").graph_expand "g").add_order_by "o").set_limit 1).set_start
        2).graph_traverse ⟨(.Out, "e"), (.In, "p"), none⟩).from_table
      = some "t") := by
  constructor
  · rw [C1_build_clause_order _ "t" rfl]
    rfl
  · rfl

/-- C2: `build` fails with the missing-FROM error exactly when no source
table was set, whatever the other clauses hold; and for any non-empty
table name `t`, a fresh builder after `from_ t` builds to exactly
`SELECT * FROM t`. -/
theorem C2_missing_from_clause (qb : QueryBuilder) (t : String)
    (_ht : t ≠ "") :
    (qb.build = .error "The FROM clause is required."
      ↔ qb.from_table = none)
    ∧ (QueryBuilder.new.from_ t).build = .ok ("SELECT * FROM " ++ t) := by
  constructor
  · constructor
    · intro hb
      cases hft : qb.from_table with
      | none => rfl
      | some t' => simp [QueryBuilder.build, hft] at hb
    · intro hn
      simp [QueryBuilder.build, hn]
  · rfl

/-- C2 witness: at the concrete table name "user". -/
theorem C2_missing_from_clause_witness :
    QueryBuilder.new.from_table = none
    ∧ QueryBuilder.new.build = .error "The FROM clause is required."
    ∧ (QueryBuilder.new.from_ "user").build = .ok ("SELECT * FROM " ++ "user") := by
  have h := C2_missing_from_clause QueryBuilder.new "user" (by decide)
  exact ⟨rfl, h.1.mpr rfl, h.2⟩

/-- C3: the condition renderer is pure and renders a leaf verbatim, an AND
node as the parenthesized " AND "-join of its rendered children, an OR node
likewise with " OR ", with parentheses at every composite node including
the outermost, as on the concrete nested example. -/
theorem C3_render_condition (s : String) (cs ds : List Condition) :
    render_condition (.Simple s) = s
    ∧ render_condition (.And cs)
        = "(" ++ String.intercalate " AND " (cs.map render_condition) ++ ")"
    ∧ render_condition (.Or ds)
        = "(" ++ String.intercalate " OR " (ds.map render_condition) ++ ")"
    ∧ render_condition
        (.And [.Simple "a=1", .Or [.Simple "b=2", .Simple "c=3"]])
        = "(a=1 AND (b=2 OR c=3))" := by
  refine ⟨rfl, ?_, ?_, rfl⟩
  · rw [render_condition, render_condition_list_eq_map]
  · rw [render_condition, render_condition_list_eq_map]

/-- C4: `graph_traverse` appends exactly the fragment
arrow1 ++ fromTable ++ "->" ++ toTable ++ ".*" (++ " AS " ++ alias when
given), where arrow1 follows the first direction and the second hop's
arrow is "->" for either value of the second direction. -/
theorem C4_graph_traverse (qb : QueryBuilder) (d1 d2 : Direction)
    (t1 t2 : String) (a : Option String) :
    (qb.graph_traverse ⟨(d1, t1), (d2, t2), a⟩).traverse_clauses
      = qb.traverse_clauses ++
          [(match d1 with | .Out => "->" | .In => "<-")
            ++ t1 ++ "->" ++ t2 ++ ".*"
            ++ (match a with | some x => " AS " ++ x | none => "")] := by
  cases d1 <;> cases a <;>
    simp only [QueryBuilder.graph_traverse, String.append_assoc,
      String.append_empty]

/-- C5: `ScriptBuilder.build` fails with the missing-return error exactly
when the return pairs were never set or were set to an explicitly empty
sequence; with at least one pair it succeeds. -/
theorem C5_script_missing_return (sb : ScriptBuilder) :
    (sb.build = .error "A return object is required."
      ↔ (sb.return_map = none ∨ sb.return_map = some []))
    ∧ (∀ p ps, sb.return_map = some (p :: ps) → (sb.build).isOk = true) := by
  constructor
  · constructor
    · intro hb
      cases hm : sb.return_map with
      | none => exact Or.inl rfl
      | some m =>
        cases m with
        | nil => exact Or.inr rfl
        | cons p ps => simp [ScriptBuilder.build, hm] at hb
    · intro h
      rcases h with h | h <;> simp [ScriptBuilder.build, h]
  · intro p ps hm
    simp [ScriptBuilder.build, hm, Except.isOk, Except.toBool]

/-- C5 witness: a builder with one return pair builds successfully. -/
theorem C5_script_missing_return_witness :
    ((⟨[], some [("k", "$v")]⟩ : ScriptBuilder).build).isOk = true :=
  (C5_script_missing_return ⟨[], some [("k", "$v")]⟩).2 ("k", "$v") [] rfl

/-- C6: with a non-empty return map, `ScriptBuilder.build` returns each
accumulated statement followed by a newline, then the RETURN object with
its pairs rendered `key: value` and comma-joined in insertion order, with
no trailing newline; `let_raw` appends exactly `LET $name = (expr);` and
the suffix form appends `LET $name = (expr)suffix;`. -/
theorem C6_script_build (sb : ScriptBuilder) (m : List (String × String))
    (hm : sb.return_map = some m) (hne : m ≠ [])
    (name expr sfx : String) :
    sb.build
      = .ok (String.join (sb.statements.map (fun st => st ++ "\n"))
          ++ "RETURN \x7b "
          ++ String.intercalate ", " (m.map (fun kv => kv.1 ++ ": " ++ kv.2))
          ++ " \x7d")
    ∧ (sb.let_raw name expr).statements
        = sb.statements ++ ["LET $" ++ name ++ " = (" ++ expr ++ ");"]
    ∧ (sb.let_raw_with_suffix name expr sfx).statements
        = sb.statements
            ++ ["LET $" ++ name ++ " = (" ++ expr ++ ")" ++ sfx ++ ";"] := by
  refine ⟨?_, rfl, rfl⟩
  have hne' : m.isEmpty = false := by
    cases m with
    | nil => exact absurd rfl hne
    | cons p ps => rfl
  simp only [ScriptBuilder.build, hm, hne', Bool.false_eq_true, if_false,
    foldl_newline_join, String.empty_append]

/-- C6 witness: one statement and one return pair produce the expected
script text. -/
theorem C6_script_build_witness :
    (⟨["LET $a = (1);"], some [("k", "$a")]⟩ : ScriptBuilder).build
      = .ok "LET $a = (1);\nRETURN \x7b k: $a \x7d" := by
  rw [(C6_script_build ⟨["LET $a = (1);"], some [("k", "$a")]⟩ [("k", "$a")]
    rfl (by simp) "n" "e" "s").1]
  rfl

/-- C7: when the embedded query builder's `build` fails, `let_query`,
`let_query_with_suffix`, `add_query` and `add_query_with_suffix` all
return exactly the same error unchanged and leave the outer builder's
state untouched. -/
theorem C7_error_propagation (sb : ScriptBuilder) (tb : TransactionBuilder)
    (qb : QueryBuilder) (e name sfx : String)
    (h : qb.build = .error e) :
    sb.let_query name qb = (sb, .error e)
    ∧ sb.let_query_with_suffix name qb sfx = (sb, .error e)
    ∧ tb.add_query qb = (tb, .error e)
    ∧ tb.add_query_with_suffix qb sfx = (tb, .error e) := by
  refine ⟨?_, ?_, ?_, ?_⟩ <;>
    simp only [ScriptBuilder.let_query, ScriptBuilder.let_query_with_suffix,
      TransactionBuilder.add_query, TransactionBuilder.add_query_with_suffix,
      h]

/-- C7 witness: a builder with no FROM table makes every embedding
operation return the missing-FROM error and leave the outer builder
unchanged. -/
theorem C7_error_propagation_witness :
    QueryBuilder.new.build = .error "The FROM clause is required."
    ∧ ScriptBuilder.new.let_query "n" QueryBuilder.new
        = (ScriptBuilder.new, .error "The FROM clause is required.")
    ∧ TransactionBuilder.new.add_query QueryBuilder.new
        = (TransactionBuilder.new, .error "The FROM clause is required.") := by
  have h := C7_error_propagation ScriptBuilder.new TransactionBuilder.new
    QueryBuilder.new "The FROM clause is required." "n" "s" rfl
  exact ⟨rfl, h.1, h.2.2.1⟩

/-- C8: `add_statement` appends the trimmed input with a single semicolon
appended exactly when the trimmed input does not already end with one; in
particular "X;" and "X" both append the identical statement "X;". -/
theorem C8_add_statement (tb : TransactionBuilder) (stmt : String) :
    (tb.add_statement stmt).statements
      = tb.statements ++
          [if ends_with_semicolon (rust_trim stmt) then rust_trim stmt
           else rust_trim stmt ++ ";"]
    ∧ (tb.add_statement "X;").statements = tb.statements ++ ["X;"]
    ∧ (tb.add_statement "X").statements = tb.statements ++ ["X;"] := by
  refine ⟨?_, rfl, rfl⟩
  by_cases hc : ends_with_semicolon (rust_trim stmt) = true
  · simp [TransactionBuilder.add_statement, hc]
  · simp only [Bool.not_eq_true] at hc
    simp [TransactionBuilder.add_statement, hc]

/-- C9: `build` is non-mutating and idempotent: in the state-passing
reading of the `&self` method, two consecutive calls return identical
results and every field of the builder is unchanged, whether the call
succeeds or fails. -/
theorem C9_build_pure_idempotent (qb : QueryBuilder) :
    (qb.buildSt).1 = qb
    ∧ ((qb.buildSt).1.buildSt).2 = (qb.buildSt).2
    ∧ (qb.buildSt).1.select_items = qb.select_items
    ∧ (qb.buildSt).1.distinct = qb.distinct
    ∧ (qb.buildSt).1.graph_expansions = qb.graph_expansions
    ∧ (qb.buildSt).1.traverse_clauses = qb.traverse_clauses
    ∧ (qb.buildSt).1.from_table = qb.from_table
    ∧ (qb.buildSt).1.where_clauses = qb.where_clauses
    ∧ (qb.buildSt).1.order_by = qb.order_by
    ∧ (qb.buildSt).1.limit = qb.limit
    ∧ (qb.buildSt).1.start = qb.start
    ∧ (qb.buildSt).1.fetch_clauses = qb.fetch_clauses :=
  ⟨rfl, rfl, rfl, rfl, rfl, rfl, rfl, rfl, rfl, rfl, rfl, rfl⟩

/-- C10: `select` clears the select list whenever it currently equals the
single entry "*", not only on the literal first call: an explicitly
selected bare wildcard is discarded by the next `select` call just like
the default. -/
theorem C10_select_wildcard_cleared (qb : QueryBuilder) (e : String)
    (a : Option String) (h : qb.select_items = ["*"]) :
    (qb.select e a).select_items
      = [match a with | some x => e ++ " AS " ++ x | none => e]
    ∧ (QueryBuilder.new.select "*" none).select_items = ["*"]
    ∧ ((QueryBuilder.new.select "*" none).select "x" none).select_items
        = ["x"] := by
  refine ⟨?_, rfl, rfl⟩
  cases a <;> simp [QueryBuilder.select, h]

/-- C10 witness: after re-selecting the bare wildcard, a further select
replaces it. -/
theorem C10_select_wildcard_cleared_witness :
    ((QueryBuilder.new.select "*" none).select "y" (some "z")).select_items
      = ["y AS z"] := by
  have h := C10_select_wildcard_cleared (QueryBuilder.new.select "*" none)
    "y" (some "z") rfl
  rw [h.1]
  rfl

end Surrealex
